import Mathlib

/-!
Verification development for the SSEF-Bot repository.

The Python sources are shallowly embedded: the `Character` data model and its
derived names (`src/classes/character.py`), the character autocomplete and
converter (`src/classes/character.py`), and the reminder scheduler
(`src/cogs/reminder/__init__.py`).  External collaborators (the Discord
gateway, the Mongo driver, `rapidfuzz` scorers and `discord.utils`'s
markdown stripper) are passed in as explicit function parameters; everything
the repository itself computes is translated directly from the source.

The repository's regular expressions (`matchers` and `TUPPER_REPLY_PATTERN`
in the source) are executed by a small backtracking matcher over token lists
that mirrors Python `re` semantics for the constructs those patterns use:
literal characters (optionally case-insensitive), greedy `\s*`, and greedy
captured classes (`(.+)`, `(\d+)`, `(.*)`).  Character classes use their
ASCII meaning, which covers every string these claims touch.
-/

/-- Whitespace characters matched by Python's `\s` (ASCII range). -/
def isPySpace (c : Char) : Bool :=
  c == ' ' || c == '\t' || c == '\n' || c == '\r' || c == '\x0b' || c == '\x0c'

/-- Characters matched by `.` in a pattern compiled without `re.DOTALL`:
anything except a newline. -/
def dotNoNewline (c : Char) : Bool :=
  !(c == '\n')

/-- Characters matched by `.` under `re.DOTALL`: anything. -/
def dotAll (_ : Char) : Bool :=
  true

/-- One token of a compiled pattern: a literal character (with a
case-insensitivity flag mirroring `re.IGNORECASE`), a greedy non-capturing
class repetition (`\s*`), or a greedy capturing class repetition
(`(.+)`/`(\d+)` when `one` is true, `(.*)` when it is false). -/
inductive Tok where
  | lit (c : Char) (ci : Bool)
  | star (f : Char → Bool)
  | cap (f : Char → Bool) (one : Bool)

/-- Literal comparison, case-insensitive when `ci` is set. -/
def charMatches (ci : Bool) (x c : Char) : Bool :=
  if ci then x.toLower == c.toLower else x == c

/-- First `some` in a list of options (backtracking alternatives are tried
in order). -/
def firstSome {α : Type} : List (Option α) → Option α
  | [] => none
  | some a :: _ => some a
  | none :: rest => firstSome rest

/-- All ways a greedy class repetition can split the input, longest
consumption first, as `(consumed, rest)` pairs. -/
def greedyParts (f : Char → Bool) (s : List Char) : List (List Char × List Char) :=
  let p := s.takeWhile f
  ((List.range (p.length + 1)).reverse).map (fun i => (p.take i, s.drop i))

/-- Backtracking matcher: match `toks` against `s`, requiring the whole
remainder to be consumed when `endA` is set (a trailing `$`).  Returns the
captured groups in pattern order.  The fuel argument strictly exceeds the
token-list length on every call, so it never runs out. -/
def mtchF : Nat → Bool → List Tok → List Char → Option (List (List Char))
  | 0, _, _, _ => none
  | _ + 1, endA, [], s => if endA && !s.isEmpty then none else some []
  | fuel + 1, endA, Tok.lit c ci :: ts, s =>
    match s with
    | [] => none
    | x :: rest => if charMatches ci x c then mtchF fuel endA ts rest else none
  | fuel + 1, endA, Tok.star f :: ts, s =>
    firstSome ((greedyParts f s).map (fun pr => mtchF fuel endA ts pr.2))
  | fuel + 1, endA, Tok.cap f one :: ts, s =>
    firstSome ((greedyParts f s).map (fun pr =>
      if one && pr.1.isEmpty then none
      else (mtchF fuel endA ts pr.2).map (fun caps => pr.1 :: caps)))

/-- Match the pattern at the current position only (used for patterns
anchored with `^`). -/
def reMatchAt (endA : Bool) (toks : List Tok) (s : List Char) : Option (List (List Char)) :=
  mtchF (toks.length + 1) endA toks s

/-- Python `re.search`: try the pattern at every start position from the
left and keep the first match. -/
def reSearchList (toks : List Tok) : List Char → Option (List (List Char))
  | [] => reMatchAt false toks []
  | x :: rest =>
    match reMatchAt false toks (x :: rest) with
    | some caps => some caps
    | none => reSearchList toks rest

/-- Characters of a string as case-insensitive literal tokens. -/
def litToksCI (s : String) : List Tok :=
  s.toList.map (fun c => Tok.lit c true)

/-- Characters of a string as case-sensitive literal tokens. -/
def litToks (s : String) : List Tok :=
  s.toList.map (fun c => Tok.lit c false)

/-- The pattern `Name\s*:\s*(.+)` with `re.IGNORECASE`
(`matchers[0]` in `src/classes/character.py`). -/
def nameToks : List Tok :=
  litToksCI "Name" ++ [Tok.star isPySpace, Tok.lit ':' true, Tok.star isPySpace,
    Tok.cap dotNoNewline true]

/-- The pattern `Species\s*:\s*(.+)` with `re.IGNORECASE`
(`matchers[1]` in `src/classes/character.py`). -/
def speciesToks : List Tok :=
  litToksCI "Species" ++ [Tok.star isPySpace, Tok.lit ':' true, Tok.star isPySpace,
    Tok.cap dotNoNewline true]

/-- The pattern `Level\s*:\s*(\d+)` with `re.IGNORECASE`
(`matchers[2]` in `src/classes/character.py`). -/
def levelToks : List Tok :=
  litToksCI "Level" ++ [Tok.star isPySpace, Tok.lit ':' true, Tok.star isPySpace,
    Tok.cap Char.isDigit true]

/-- Run `re.search` and return the first captured group, as the source code
does with `matcher.search(desc)[1]`. -/
def searchGroup (toks : List Tok) (s : String) : Option (List Char) :=
  (reSearchList toks s.toList).bind List.head?

/-- Python `str.strip()`: drop whitespace from both ends. -/
def pyStrip (s : String) : String :=
  String.mk (((s.toList.dropWhile isPySpace).reverse.dropWhile isPySpace).reverse)

/-- Python `s.split(sep)[0]` for a one-character separator: the part of the
string before the first occurrence of `sep` (the whole string when absent). -/
def splitHead (sep : Char) (s : String) : String :=
  String.mk (s.toList.takeWhile (fun c => !(c == sep)))

/-- Python `s[:n]`: the first `n` characters. -/
def strTake (s : String) (n : Nat) : String :=
  String.mk (s.toList.take n)

/-- Python `f"{n:03d}"` for a non-negative integer: decimal, left-padded
with zeros to width three. -/
def padZero3 (n : Nat) : String :=
  if n < 10 then "00" ++ toString n
  else if n < 100 then "0" ++ toString n
  else toString n

/-- Python `int` on the non-empty digit string captured by `(\d+)`. -/
def parseNatDigits (l : List Char) : Nat :=
  l.foldl (fun acc c => acc * 10 + (c.toNat - '0'.toNat)) 0

/-- Python `needle in hay` on lists of characters. -/
def listContains (needle : List Char) : List Char → Bool
  | [] => needle.isEmpty
  | c :: t => needle.isPrefixOf (c :: t) || listContains needle t

/-- Python `needle in hay` on strings. -/
def strIn (needle hay : String) : Bool :=
  listContains needle.toList hay.toList

/-- Python `str.lower()` (ASCII case mapping). -/
def strLower (s : String) : String :=
  String.mk (s.toList.map Char.toLower)

/-- The truncation applied to names and species in `display_name`:
`if len(x) > 20: x = f"{x[:20]}..."`. -/
def truncate20 (s : String) : String :=
  if s.length > 20 then strTake s 20 ++ "..." else s

/-- The `Character` dataclass of `src/classes/character.py` (fields `_id`,
`user_id`, `name`, `description`; the `ObjectId` is modelled by its numeric
value). -/
structure Character where
  _id : Nat
  user_id : Int
  name : String
  description : String
deriving DecidableEq, Repr

/-- A value stored in a Mongo document / passed as a Python keyword
argument. -/
inductive PyVal where
  | vint (n : Int)
  | vstr (s : String)
  | oid (i : Nat)
  | vnone
deriving DecidableEq, Repr

/-- The field names declared by the `Character` dataclass, in order. -/
def characterFields : List String :=
  ["_id", "user_id", "name", "description"]

/-- Python keyword-argument construction `Character(**kwargs)`: a dataclass
`__init__` raises `TypeError` on any keyword that is not a declared field,
and on a missing required field; otherwise it builds the instance. -/
def Character.construct (kwargs : List (String × PyVal)) : Except String Character :=
  match kwargs.find? (fun kv => !characterFields.contains kv.1) with
  | some kv => Except.error ("TypeError: unexpected keyword argument " ++ kv.1)
  | none =>
    match (kwargs.find? (fun kv => kv.1 == "_id")).map Prod.snd,
        (kwargs.find? (fun kv => kv.1 == "user_id")).map Prod.snd,
        (kwargs.find? (fun kv => kv.1 == "name")).map Prod.snd,
        (kwargs.find? (fun kv => kv.1 == "description")).map Prod.snd with
    | some (PyVal.oid i), some (PyVal.vint u), some (PyVal.vstr nm), some (PyVal.vstr ds) =>
      Except.ok ⟨i, u, nm, ds⟩
    | _, _, _, _ => Except.error "TypeError: missing required argument"

/-- A `Characters` document as inserted by `Submission.add`
(`src/cogs/submission/__init__.py`, lines 176-183): the four content fields
plus the `server` key, with `_id` added by the storage layer. -/
def storedCharacterDoc (i : Nat) (u : Int) (nm ds : String) (server : Int) :
    List (String × PyVal) :=
  [("_id", PyVal.oid i), ("name", PyVal.vstr nm), ("description", PyVal.vstr ds),
    ("user_id", PyVal.vint u), ("server", PyVal.vint server)]

/-- The `oc_name` property of `Character`.  `md` is `discord.utils
.remove_markdown`, an external collaborator passed as a parameter. -/
def Character.oc_name (md : String → String) (c : Character) : String :=
  let desc := md c.description
  let n0 := match searchGroup nameToks desc with
    | some g => pyStrip (String.mk g)
    | none => c.name
  md (splitHead ',' (splitHead '.' n0))

/-- The `display_name` property of `Character`, translated line by line from
`src/classes/character.py` (lines 76-95). -/
def Character.display_name (md : String → String) (c : Character) : String :=
  let desc := md c.description
  let nm1 := truncate20 (match searchGroup nameToks desc with
    | some g => pyStrip (String.mk g)
    | none => c.name)
  let nm2 := match searchGroup speciesToks desc with
    | some g => nm1 ++ ("《" ++ truncate20 (splitHead ',' (splitHead '.' (pyStrip (String.mk g)))) ++ "》")
    | none => nm1 ++ "《Unknown》"
  let lvl := match searchGroup levelToks desc with
    | some g => parseNatDigits g
    | none => 0
  md (padZero3 lvl ++ "〙" ++ nm2)

/-- An application-command `Choice` as built by
`CharacterTransformer.autocomplete`: display name and stringified id. -/
structure Choice where
  name : String
  value : String
deriving DecidableEq, Repr

/-- Python's `<` on strings: lexicographic comparison of the code-point
sequences. -/
def charListLt : List Char → List Char → Bool
  | _, [] => false
  | [], _ :: _ => true
  | a :: as, b :: bs =>
    if a.toNat < b.toNat then true
    else if b.toNat < a.toNat then false
    else charListLt as bs

/-- The weak order induced by Python string comparison (equal or less). -/
def pyStrLe (a b : String) : Bool :=
  a == b || charListLt a.toList b.toList

/-- A strict comparison failing both ways means the lists are equal. -/
theorem charListLt_eq_of_not_either :
    ∀ as bs, charListLt as bs = false → charListLt bs as = false → as = bs
  | [], [] => fun _ _ => rfl
  | [], _ :: _ => fun h _ => by simp [charListLt] at h
  | _ :: _, [] => fun _ h => by simp [charListLt] at h
  | a :: as, b :: bs => fun h1 h2 => by
    simp only [charListLt] at h1 h2
    by_cases hab : a.toNat < b.toNat
    · simp [hab] at h1
    · by_cases hba : b.toNat < a.toNat
      · simp [hba] at h2
      · have hnn : a.toNat = b.toNat := by omega
        have he : a = b := Char.eq_of_val_eq (UInt32.ext hnn)
        have ht := charListLt_eq_of_not_either as bs
          (by simpa [hab, hba] using h1) (by simpa [hba, hab] using h2)
        rw [he, ht]

/-- Python string comparison is transitive. -/
theorem charListLt_trans :
    ∀ as bs cs, charListLt as bs = true → charListLt bs cs = true →
      charListLt as cs = true
  | _, [], _ => fun h _ => by simp [charListLt] at h
  | _, _ :: _, [] => fun _ h => by simp [charListLt] at h
  | [], _ :: _, _ :: _ => fun _ _ => by simp [charListLt]
  | a :: as, b :: bs, c :: cs => fun h1 h2 => by
    simp only [charListLt] at h1 h2 ⊢
    by_cases hab : a.toNat < b.toNat <;> by_cases hbc : b.toNat < c.toNat
    · simp [show a.toNat < c.toNat by omega]
    · have hcb : ¬ (c.toNat < b.toNat) := by
        by_contra hc
        simp [hbc, hc] at h2
      simp [show a.toNat < c.toNat by omega]
    · have hba : ¬ (b.toNat < a.toNat) := by
        by_contra hc
        simp [hab, hc] at h1
      simp [show a.toNat < c.toNat by omega]
    · have hba : ¬ (b.toNat < a.toNat) := by
        by_contra hc
        simp [hab, hc] at h1
      have hcb : ¬ (c.toNat < b.toNat) := by
        by_contra hc
        simp [hbc, hc] at h2
      have hac : ¬ (a.toNat < c.toNat) := by omega
      have hca : ¬ (c.toNat < a.toNat) := by omega
      simp only [hac, hca, if_false]
      exact charListLt_trans as bs cs (by simpa [hab, hba] using h1)
        (by simpa [hbc, hcb] using h2)

/-- The sort key used by `ocs.sort(key=lambda x: x.name)`: Python comparison
of the raw stored names. -/
def charNameLe (a b : Character) : Prop :=
  pyStrLe a.name b.name = true

instance : DecidableRel charNameLe :=
  fun a b => inferInstanceAs (Decidable (pyStrLe a.name b.name = true))

instance : IsTotal Character charNameLe := by
  refine ⟨fun a b => ?_⟩
  unfold charNameLe pyStrLe
  by_cases h1 : charListLt a.name.toList b.name.toList = true
  · exact Or.inl (by rw [Bool.or_eq_true]; exact Or.inr h1)
  · by_cases h2 : charListLt b.name.toList a.name.toList = true
    · exact Or.inr (by rw [Bool.or_eq_true]; exact Or.inr h2)
    · have hl : a.name.toList = b.name.toList :=
        charListLt_eq_of_not_either _ _ (by simpa using h1) (by simpa using h2)
      have hn : a.name = b.name := String.ext hl
      exact Or.inl (by rw [Bool.or_eq_true]; exact Or.inl (beq_iff_eq.mpr hn))

instance : IsTrans Character charNameLe := by
  refine ⟨fun a b c h1 h2 => ?_⟩
  unfold charNameLe pyStrLe at *
  simp only [Bool.or_eq_true, beq_iff_eq] at *
  rcases h1 with h1 | h1
  · rwa [h1]
  · rcases h2 with h2 | h2
    · rw [← h2]
      right
      exact h1
    · right
      exact charListLt_trans _ _ _ h1 h2

/-- The list of characters `CharacterTransformer.autocomplete` shows,
before they are wrapped in `Choice`s (`src/classes/character.py`, lines
176-191): sort the scoped characters by stored name (Python's stable sort),
filter by case-insensitive containment of the typed value in the display
name when a value was typed, and keep the first 25. -/
def autocompleteItems (md : String → String) (value : String) (ocs : List Character) :
    List Character :=
  let sorted := List.insertionSort charNameLe ocs
  let items := if value.isEmpty then sorted
    else sorted.filter (fun x => strIn (strLower value) (strLower (Character.display_name md x)))
  items.take 25

/-- `CharacterTransformer.autocomplete`: the returned choices. -/
def autocomplete (md : String → String) (value : String) (ocs : List Character) :
    List Choice :=
  (autocompleteItems md value ocs).map
    (fun it => ⟨Character.display_name md it, toString it._id⟩)

/-- The error raised by `Character.converter`: either
`BadArgument("You have no characters")` or
`BadArgument(f"Character {argument!r} not found")`. -/
inductive ConvError where
  | noCharacters
  | notFound (argument : String)
deriving DecidableEq, Repr

/-- Running best candidate of `rapidfuzz.process.extractOne`: scan the
choices in order, admit a first best only at or above the cutoff, and
replace it only on a strictly higher score (so the first best wins ties). -/
def extractOneGo (score : String → String → Nat) (q : String)
    (proc : Character → String) (cutoff : Nat) :
    Option (Character × Nat) → List Character → Option (Character × Nat)
  | acc, [] => acc
  | acc, c :: rest =>
    let s := score q (proc c)
    extractOneGo score q proc cutoff
      (match acc with
        | none => if cutoff ≤ s then some (c, s) else none
        | some (b, bs) => if bs < s then some (c, s) else some (b, bs)) rest

/-- `rapidfuzz.process.extractOne` with a score cutoff, specialised to the
way the repository calls it (the external scorer is a parameter; the
processor is applied to the choices only, matching the
`isinstance(x, Character)` guard in the source's lambdas). -/
def extractOne (score : String → String → Nat) (q : String)
    (proc : Character → String) (cutoff : Nat) (cands : List Character) :
    Option Character :=
  (extractOneGo score q proc cutoff none cands).map Prod.fst

/-- `Character.converter` (`src/classes/character.py`, lines 98-143) after
the keyword query: `directHit` is the result of the `find_one` on the id or
exact stripped name, `ocs` the user's characters, `score` the external
`rapidfuzz` scorer.  On a miss it falls back to fuzzy matching over
`oc_name`s with cutoff 95 and raises the two distinct `BadArgument`s. -/
def Character.converter (score : String → String → Nat) (md : String → String)
    (directHit : Option Character) (argument : String) (ocs : List Character) :
    Except ConvError Character :=
  match directHit with
  | some c => Except.ok c
  | none =>
    if ocs.isEmpty then Except.error ConvError.noCharacters
    else
      match extractOne score argument (Character.oc_name md) 95 ocs with
      | some c => Except.ok c
      | none => Except.error (ConvError.notFound argument)

/-- Discord's epoch in milliseconds since the Unix epoch
(`discord.utils.DISCORD_EPOCH`). -/
def DISCORD_EPOCH : Nat := 1420070400000

/-- `discord.utils.snowflake_time`, with datetimes modelled as milliseconds
since the Unix epoch: the top 42 bits of the id are milliseconds since the
Discord epoch. -/
def snowflake_time (id : Nat) : Nat :=
  (id >>> 22) + DISCORD_EPOCH

/-- `discord.utils.time_snowflake` (low variant, as called by
`remind_set`): milliseconds since the Discord epoch shifted into the
timestamp field. -/
def time_snowflake (ms : Nat) : Nat :=
  (ms - DISCORD_EPOCH) <<< 22

/-- The `ReminderInfo` dataclass of `src/cogs/reminder/__init__.py`.
`cooldown_time` is in minutes with `0` meaning disabled (`__post_init__`
maps a falsy value to `0`). -/
structure ReminderInfo where
  user_id : Int
  channel_id : Int
  server_id : Int
  cooldown_time : Nat
  last_message_id : Option Nat
  notified_already : Bool
deriving DecidableEq, Repr

/-- Python truthiness of the optional `last_message_id` (both `None` and
`0` are falsy). -/
def truthyId : Option Nat → Bool
  | none => false
  | some n => n != 0

/-- `ReminderInfo.expired` (lines 66-71): the last message id and cooldown
are truthy and the message timestamp plus the cooldown (minutes) is at or
before `now`. -/
def ReminderInfo.expired (r : ReminderInfo) (now : Nat) : Bool :=
  truthyId r.last_message_id && (r.cooldown_time != 0) &&
    decide (snowflake_time (r.last_message_id.getD 0) + r.cooldown_time * 60000 ≤ now)

/-- A Discord message as far as the reminder listener inspects one: id,
content, attachment filenames. -/
structure Msg where
  id : Nat
  content : String
  attachments : List String
deriving DecidableEq, Repr

/-- The sort key of `sorted(messages, key=lambda x: x.id)`. -/
def msgIdLe (a b : Msg) : Prop :=
  a.id ≤ b.id

instance : DecidableRel msgIdLe :=
  fun a b => inferInstanceAs (Decidable (a.id ≤ b.id))

/-- `TUPPER_REPLY_PATTERN` of `src/cogs/reminder/__init__.py` (compiled
with `re.DOTALL`, anchored at both ends). -/
def tupperToks : List Tok :=
  litToks "> " ++ [Tok.cap dotAll true] ++ litToks "\n@" ++ [Tok.cap dotAll false] ++
    litToks " (<@!" ++ [Tok.cap Char.isDigit true] ++
    litToks ">) - [jump](<https://discord.com/channels/@me/" ++
    [Tok.cap Char.isDigit true] ++ litToks "/" ++ [Tok.cap Char.isDigit true] ++
    litToks ">)\n" ++ [Tok.cap dotAll false]

/-- The text compared against the incoming message: the `content` group of
`TUPPER_REPLY_PATTERN` when the webhook message matches it and the group is
truthy, else the raw webhook message content (`on_message`, lines 203-207). -/
def tupperContent (content : String) : String :=
  match reMatchAt true tupperToks content.toList with
  | some caps =>
    let c := (caps.drop 5).headD []
    if c.isEmpty then content else String.mk c
  | none => content

/-- The per-echo test of `on_message` (lines 209-217): fuzzy similarity at
cutoff 95 (`wr` is the external `fuzz.WRatio` at that cutoff), else
substring containment, else identical attachment filename lists. -/
def echoMatches (wr : String → String → Bool) (message m : Msg) : Bool :=
  let text := tupperContent m.content
  wr text message.content || strIn text message.content ||
    (!message.attachments.isEmpty &&
      message.attachments.length == m.attachments.length &&
      (message.attachments.zip m.attachments).all (fun p => p.1 == p.2))

/-- The authoritative message `aux_message` after the loop over the webhook
echoes sorted by id: the last matching echo, else the incoming message. -/
def selectAux (wr : String → String → Bool) (message : Msg) (messages : List Msg) : Msg :=
  (List.insertionSort msgIdLe messages).foldl
    (fun aux m => if echoMatches wr message m then m else aux) message

/-- The reminder listener `Reminder.on_message` (lines 132-225), reduced to
its effect on the tracked reminder for the author and channel of the
incoming message.  `info` is the reminder found in `info_channels` (none
when the pair is untracked); `doneEdit` reports whether the edit future
completed in the two-second race and `messages` the webhook echoes
collected by the checker; the leading booleans are the guards at the top of
the handler.  The guard on line 199 reads the completed futures' names from
a generator: the `"Edit" in futures` membership test exhausts it, so the
subsequent `"Message" in futures` test is always false at its evaluation
point, and the handler returns without an update whenever `messages` is
empty — even when the message-wait timeout was what completed.  The result
is the updated reminder, or `none` when the handler returns without
touching it. -/
def onMessage (wr : String → String → Bool)
    (ephemeral inGuild isWebhook isBot : Bool)
    (info : Option ReminderInfo) (isCommand : Bool)
    (doneEdit : Bool) (messages : List Msg) (message : Msg) :
    Option ReminderInfo :=
  if ephemeral || !inGuild || isWebhook || isBot then none
  else
    match info with
    | none => none
    | some info =>
      if isCommand then none
      else if doneEdit || messages.isEmpty then none
      else
        let aux := selectAux wr message messages
        some { info with last_message_id := some aux.id, notified_already := false }

/-- The per-sweep environment a reminder is checked against: the channel's
current `last_message_id`, whether the owning member is observed offline,
and the current time in milliseconds. -/
structure ChannelEnv where
  channel_last : Option Nat
  memberOffline : Bool
  now : Nat
deriving DecidableEq, Repr

/-- Outcome of one notification attempt in `Reminder.check` (lines 270-296):
the reply to the fetched message succeeded, the fetch raised `NotFound` and
the fallback channel send succeeded, or a `Forbidden`/`HTTPException` was
raised and caught. -/
inductive NotifyOutcome where
  | replied
  | fallback
  | failed
deriving DecidableEq, Repr

/-- What was delivered: a reply referencing the tracked message, or a
channel-level message with no reply reference (the `NotFound` branch). -/
inductive SentAction where
  | replyRef (refId : Nat)
  | channelNoRef
deriving DecidableEq, Repr

/-- `Reminder.reminder_check`'s `inner_check` (lines 245-253): skip when the
tracked id equals the channel's last message id, skip offline members, then
require not yet notified and expired. -/
def inner_check (env : ChannelEnv) (item : ReminderInfo) : Bool :=
  if item.last_message_id == env.channel_last then false
  else if env.memberOffline then false
  else !item.notified_already && item.expired env.now

/-- One reminder's slice of a sweep of `Reminder.check` (lines 270-305):
when `inner_check` passes, a successful reply or fallback send marks the
reminder notified; a caught failure leaves it untouched to be retried. -/
def sweepStep (env : ChannelEnv) (out : NotifyOutcome) (item : ReminderInfo) :
    Option SentAction × ReminderInfo :=
  if inner_check env item then
    match out with
    | NotifyOutcome.replied =>
      (some (SentAction.replyRef (item.last_message_id.getD 0)),
        { item with notified_already := true })
    | NotifyOutcome.fallback =>
      (some SentAction.channelNoRef, { item with notified_already := true })
    | NotifyOutcome.failed => (none, item)
  else (none, item)

/-- A run of consecutive sweeps over one reminder with no interleaved
message reset: total number of notifications delivered, and the final
state. -/
def sweepRun : List (ChannelEnv × NotifyOutcome) → ReminderInfo → Nat × ReminderInfo
  | [], item => (0, item)
  | st :: rest, item =>
    let fired := if (sweepStep st.1 st.2 item).1.isSome then 1 else 0
    let tail := sweepRun rest (sweepStep st.1 st.2 item).2
    (fired + tail.1, tail.2)

/-- A `Reminder` document as read back by `remind_set`'s `find_one` with
projection `{"_id": 0, "cooldown_time": 0}`: everything but the id and the
cooldown. -/
structure ReminderDoc where
  user_id : Int
  channel_id : Int
  server_id : Int
  last_message_id : Option Nat
  notified_already : Bool
deriving DecidableEq, Repr

/-- The `DEFINITIONS` preset table of `src/cogs/reminder/__init__.py`. -/
def DEFINITIONS : List (String × Nat) :=
  [("None", 0), ("1m", 1), ("5m", 5), ("15m", 15), ("30m", 30), ("1h", 60),
    ("3h", 180), ("6h", 360), ("12h", 720), ("24h", 1440), ("48h", 2880), ("1w", 10080)]

/-- `DEFINITIONS[time]` (the command's `time` literal is always a key). -/
def lookupDefinition (t : String) : Nat :=
  ((DEFINITIONS.find? (fun kv => kv.1 == t)).map Prod.snd).getD 0

/-- `Reminder.remind_set` (lines 356-419), reduced to the reminder it
stores: abort without mutating when the author cannot send in the channel;
otherwise rebuild the reminder from the projected stored document (which
keeps `last_message_id` and `notified_already`) with the new cooldown, or,
with no stored document, create one stamped with a snowflake for the
current time and an unset notified flag. -/
def remind_set (canSend : Bool) (time : String) (now : Nat)
    (uid cid sid : Int) (stored : Option ReminderDoc) : Option ReminderInfo :=
  if !canSend then none
  else
    let amount := lookupDefinition time
    match stored with
    | some d =>
      some ⟨d.user_id, d.channel_id, d.server_id, amount, d.last_message_id,
        d.notified_already⟩
    | none => some ⟨uid, cid, sid, amount, some (time_snowflake now), false⟩

/-- The level piece of `display_name` as the code computes it: the
zero-padded captured level, defaulting to level `0` (rendered `"000"`) when
the `Level:` pattern is absent. -/
def displayLevelPiece (desc : String) : String :=
  match searchGroup levelToks desc with
  | some g => padZero3 (parseNatDigits g)
  | none => "000"

/-- The name piece of `display_name`: the stripped captured name (else the
stored name), truncated to 20 characters plus an ellipsis when longer. -/
def displayNamePiece (desc fallback : String) : String :=
  truncate20 (match searchGroup nameToks desc with
    | some g => pyStrip (String.mk g)
    | none => fallback)

/-- The species piece of `display_name`: the bracketed, stripped, truncated
captured species, defaulting to `《Unknown》`. -/
def displaySpeciesPiece (desc : String) : String :=
  match searchGroup speciesToks desc with
  | some g => "《" ++ truncate20 (splitHead ',' (splitHead '.' (pyStrip (String.mk g)))) ++ "》"
  | none => "《Unknown》"

/-- Modelled from the spec: the spec describes the level piece of
`display_name` as defaulting to an "unknown" marker when the `Level:`
pattern is absent (the code instead defaults to `"000"`). -/
def displayLevelPieceSpec (desc : String) : String :=
  match searchGroup levelToks desc with
  | some g => padZero3 (parseNatDigits g)
  | none => "unknown"

/-- Modelled from the spec: `display_name` as the spec's composition reads,
using the "unknown" default for a missing level. -/
def displayNameSpecForm (md : String → String) (c : Character) : String :=
  md (displayLevelPieceSpec (md c.description) ++ "〙" ++
    displayNamePiece (md c.description) c.name ++ displaySpeciesPiece (md c.description))

/-- The worked example of the spec. -/
def sparkChar : Character :=
  ⟨0, 1, "Spark", "Name: Spark\nSpecies: Jolteon\nLevel: 5"⟩

/-- The worked example with the `Level:` line removed. -/
def sparkNoLevel : Character :=
  ⟨0, 1, "Spark", "Name: Spark\nSpecies: Jolteon"⟩

/-- C1: for documents of the stored shape `{_id, user_id, name, description,
server}`, constructing the in-memory `Character` does not succeed: the
dataclass declares no `server` field, so `Character(**doc)` raises
`TypeError` for every such document, while the same construction without
the `server` key succeeds.  (The claim — and the call
`Character(..., server=...)` in `src/cogs/submission/modals.py` — expect
the five-key construction to succeed, so the dataclass is missing the
field.) -/
theorem character_construct_server_key :
    (∀ i u nm ds srv, Character.construct (storedCharacterDoc i u nm ds srv) =
      Except.error "TypeError: unexpected keyword argument server")
  ∧ (∀ i u nm ds, Character.construct
      [("_id", PyVal.oid i), ("user_id", PyVal.vint u), ("name", PyVal.vstr nm),
        ("description", PyVal.vstr ds)] = Except.ok ⟨i, u, nm, ds⟩) :=
  ⟨fun _ _ _ _ _ => rfl, fun _ _ _ _ => rfl⟩

/-- C2 counterexample: on a description with no `Level:` line the code
renders the level as `"000"`, not as the "unknown" marker the claim's
composition prescribes, so `display_name` differs from the claim's
composition at this input. -/
theorem display_name_level_default_cex :
    Character.display_name id sparkNoLevel = "000〙Spark《Jolteon》"
  ∧ Character.display_name id sparkNoLevel ≠ displayNameSpecForm id sparkNoLevel := by
  exact ⟨by decide, by decide⟩

/-- C2 (amended): for every description, `display_name` is the deterministic
composition of the zero-padded level (defaulting to `"000"` when the
`Level:` pattern is absent), the name truncated to at most 20 characters
plus an ellipsis when longer, and the bracketed species (defaulting to
`"Unknown"`); and the spec's worked example renders exactly
`"005〙Spark《Jolteon》"`. -/
theorem display_name_composition :
    (∀ md c, Character.display_name md c =
      md (displayLevelPiece (md c.description) ++ "〙" ++
        displayNamePiece (md c.description) c.name ++ displaySpeciesPiece (md c.description)))
  ∧ Character.display_name id sparkChar = "005〙Spark《Jolteon》" := by
  constructor
  · intro md c
    unfold Character.display_name displayLevelPiece displayNamePiece displaySpeciesPiece
    cases hn : searchGroup nameToks (md c.description) <;>
      cases hs : searchGroup speciesToks (md c.description) <;>
        cases hl : searchGroup levelToks (md c.description) <;>
          simp only [hn, hs, hl, String.append_assoc] <;> rfl
  · decide

/-- A reminder whose tracked message is six minutes old under a five-minute
cooldown, at reference time `1700000000000` ms. -/
def reminderSixAgo : ReminderInfo :=
  ⟨1, 2, 3, 5, some (time_snowflake (1700000000000 - 6 * 60000)), false⟩

/-- The same reminder with a four-minute-old tracked message. -/
def reminderFourAgo : ReminderInfo :=
  ⟨1, 2, 3, 5, some (time_snowflake (1700000000000 - 4 * 60000)), false⟩

/-- C3: `expired` is true exactly when the cooldown is set and the tracked
message id is set (truthy) and its snowflake timestamp plus the cooldown in
minutes is at or before now; with a five-minute cooldown a six-minute-old
message is expired and a four-minute-old one is not. -/
theorem expired_iff_cooldown_and_elapsed :
    (∀ (r : ReminderInfo) (now : Nat), r.expired now = true ↔
      (r.cooldown_time ≠ 0 ∧ ∃ m, r.last_message_id = some m ∧ m ≠ 0 ∧
        snowflake_time m + r.cooldown_time * 60000 ≤ now))
  ∧ reminderSixAgo.expired 1700000000000 = true
  ∧ reminderFourAgo.expired 1700000000000 = false := by
  refine ⟨fun r now => ?_, by decide, by decide⟩
  cases h : r.last_message_id with
  | none => simp [ReminderInfo.expired, truthyId, h]
  | some m =>
    simp only [ReminderInfo.expired, truthyId, h, Option.getD_some, Bool.and_eq_true,
      bne_iff_ne, ne_eq, decide_eq_true_eq, Option.some.injEq]
    constructor
    · rintro ⟨⟨hm, hc⟩, hle⟩
      exact ⟨hc, m, rfl, hm, hle⟩
    · rintro ⟨hc, m', hm', hm0, hle⟩
      cases hm'
      exact ⟨⟨hm0, hc⟩, hle⟩

/-- C9: a sweep never notifies a reminder whose tracked id equals the
channel's current last message id — `sweepStep` delivers nothing and leaves
the reminder unchanged, whatever the outcome environment would have been. -/
theorem sweep_skips_channel_current (env : ChannelEnv) (out : NotifyOutcome)
    (item : ReminderInfo) (h : item.last_message_id = env.channel_last) :
    sweepStep env out item = (none, item) := by
  simp [sweepStep, inner_check, h]

/-- An armed, expired reminder (five-minute cooldown, message from
`1690000000000` ms, evaluated at `1700000000000` ms). -/
def armedExpired : ReminderInfo :=
  ⟨1, 2, 3, 5, some (time_snowflake 1690000000000), false⟩

theorem sweep_skips_channel_current_witness :
    armedExpired.expired 1700000000000 = true ∧
    sweepStep ⟨armedExpired.last_message_id, false, 1700000000000⟩ NotifyOutcome.replied
      armedExpired = (none, armedExpired) :=
  ⟨by decide, sweep_skips_channel_current _ _ _ rfl⟩

/-- C10: `remind_set` with an existing stored reminder replaces only the
cooldown (looked up from the preset table), keeping the stored
`last_message_id`, `notified_already` and identity fields; with no stored
reminder it creates one whose `last_message_id` is a snowflake for the
current time and whose `notified_already` is false. -/
theorem remind_set_replaces_only_cooldown :
    ∀ (time : String) (now : Nat) (uid cid sid : Int) (d : ReminderDoc),
    remind_set true time now uid cid sid (some d) =
      some ⟨d.user_id, d.channel_id, d.server_id, lookupDefinition time,
        d.last_message_id, d.notified_already⟩
  ∧ remind_set true time now uid cid sid none =
      some ⟨uid, cid, sid, lookupDefinition time, some (time_snowflake now), false⟩ :=
  fun _ _ _ _ _ _ => ⟨rfl, rfl⟩

/-- A reminder already marked notified is skipped untouched by a sweep. -/
theorem sweepStep_of_notified (env : ChannelEnv) (out : NotifyOutcome)
    (item : ReminderInfo) (h : item.notified_already = true) :
    sweepStep env out item = (none, item) := by
  have hc : inner_check env item = false := by
    simp [inner_check, h]
  simp [sweepStep, hc]

/-- A sweep that delivers a notification marks the reminder notified. -/
theorem sweepStep_fire_marks (env : ChannelEnv) (out : NotifyOutcome)
    (item : ReminderInfo) (h : (sweepStep env out item).1.isSome = true) :
    (sweepStep env out item).2.notified_already = true := by
  by_cases hc : inner_check env item
  · cases out <;> simp_all [sweepStep]
  · simp [sweepStep, hc] at h

/-- C5: along every run of sweep steps with no interleaved message reset, at
most one notification is delivered, and none at all once `notified_already`
is set — each expiry fires at most once. -/
theorem sweep_fires_at_most_once :
    ∀ (steps : List (ChannelEnv × NotifyOutcome)) (item : ReminderInfo),
    (sweepRun steps item).1 ≤ 1
  ∧ (item.notified_already = true → (sweepRun steps item).1 = 0) := by
  intro steps
  induction steps with
  | nil => exact fun item => ⟨by simp [sweepRun], fun _ => by simp [sweepRun]⟩
  | cons st rest ih =>
    intro item
    constructor
    · by_cases hf : (sweepStep st.1 st.2 item).1.isSome
      · have hmk := sweepStep_fire_marks st.1 st.2 item hf
        have htail := (ih (sweepStep st.1 st.2 item).2).2 hmk
        simp [sweepRun, hf, htail]
      · have htail := (ih (sweepStep st.1 st.2 item).2).1
        simp only [sweepRun, Bool.not_eq_true] at *
        rw [hf]
        simpa using htail
    · intro hnot
      have hstep := sweepStep_of_notified st.1 st.2 item hnot
      have htail := (ih item).2 hnot
      simp [sweepRun, hstep, htail]

theorem sweep_fires_at_most_once_witness :
    (sweepRun [(⟨some 777, false, 1700000000000⟩, NotifyOutcome.replied)]
      ⟨1, 2, 3, 5, some 4194304, true⟩).1 = 0
  ∧ (sweepRun [(⟨some 777, false, 1700000000000⟩, NotifyOutcome.replied)]
      ⟨1, 2, 3, 5, some 4194304, true⟩).1 ≤ 1 :=
  ⟨(sweep_fires_at_most_once _ _).2 rfl, (sweep_fires_at_most_once _ _).1⟩

/-- C6: for a due reminder, a `NotFound` on fetching the tracked message
falls back to a channel-level notification with no reply reference and
still marks the reminder notified, while a caught permission or transport
failure delivers nothing and leaves the reminder unchanged, so a later
sweep retries it. -/
theorem sweep_fallback_and_failed (env : ChannelEnv) (item : ReminderInfo)
    (hdue : inner_check env item = true) :
    sweepStep env NotifyOutcome.fallback item =
      (some SentAction.channelNoRef, { item with notified_already := true })
  ∧ sweepStep env NotifyOutcome.failed item = (none, item) :=
  ⟨by simp [sweepStep, hdue], by simp [sweepStep, hdue]⟩

theorem sweep_fallback_and_failed_witness :
    sweepStep ⟨some 777, false, 1700000000000⟩ NotifyOutcome.fallback armedExpired =
      (some SentAction.channelNoRef, { armedExpired with notified_already := true })
  ∧ sweepStep ⟨some 777, false, 1700000000000⟩ NotifyOutcome.failed armedExpired =
      (none, armedExpired) :=
  sweep_fallback_and_failed _ _ (by decide)

/-- A fold that replaces its accumulator only on matching elements keeps the
initial value when nothing matches. -/
theorem foldlKeep {α : Type} (p : α → Bool) (l : List α) :
    ∀ (init : α), (∀ m ∈ l, p m = false) →
      l.foldl (fun aux m => if p m then m else aux) init = init := by
  induction l with
  | nil => intro init _; rfl
  | cons m rest ih =>
    intro init h
    have hm : p m = false := h m (by simp)
    rw [List.foldl_cons]
    simp only [hm, Bool.false_eq_true, if_false]
    exact ih init (fun x hx => h x (by simp [hx]))

/-- When none of the collected webhook echoes matches, the authoritative
message stays the incoming message itself. -/
theorem selectAux_of_no_match (wr : String → String → Bool) (message : Msg)
    (msgs : List Msg) (h : ∀ m ∈ msgs, echoMatches wr message m = false) :
    selectAux wr message msgs = message := by
  unfold selectAux
  apply foldlKeep
  intro m hm
  exact h m ((List.perm_insertionSort msgIdLe msgs).mem_iff.mp hm)

/-- C4 (amended): the listener performs the tracked-pair update only when no
edit completed and at least one webhook echo was collected in the race
window (the futures-generator membership test on line 199 makes the
echo-free path return without updating); whenever it does update, the
reminder's notified flag is cleared and its `last_message_id` becomes the
id of the authoritative message selected by webhook-echo correlation — the
last id-ordered matching echo, or the incoming message itself when none of
the collected echoes matches. -/
theorem onMessage_reset_and_aux (wr : String → String → Bool)
    (eph g w b : Bool) (info : Option ReminderInfo) (isCmd de : Bool)
    (msgs : List Msg) (message : Msg) (updated : ReminderInfo)
    (h : onMessage wr eph g w b info isCmd de msgs message = some updated) :
    updated.notified_already = false
  ∧ updated.last_message_id = some (selectAux wr message msgs).id
  ∧ msgs ≠ []
  ∧ ((∀ m ∈ msgs, echoMatches wr message m = false) →
      (selectAux wr message msgs).id = message.id) := by
  unfold onMessage at h
  split at h
  · exact absurd h (by simp)
  · cases info with
    | none => exact absurd h (by simp)
    | some i =>
      simp only at h
      split at h
      · exact absurd h (by simp)
      · split at h
        · exact absurd h (by simp)
        · rename_i hguard
          rw [Option.some.injEq] at h
          subst h
          refine ⟨rfl, rfl, fun he => ?_,
            fun hall => congrArg Msg.id (selectAux_of_no_match wr message msgs hall)⟩
          subst he
          simp at hguard

theorem onMessage_reset_and_aux_witness :
    (⟨1, 2, 3, 5, some 5, false⟩ : ReminderInfo).notified_already = false
  ∧ (⟨1, 2, 3, 5, some 5, false⟩ : ReminderInfo).last_message_id =
      some (selectAux (fun _ _ => false) ⟨5, "hi", []⟩ [⟨999, "bye", []⟩]).id
  ∧ [(⟨999, "bye", []⟩ : Msg)] ≠ []
  ∧ ((∀ m ∈ [(⟨999, "bye", []⟩ : Msg)],
        echoMatches (fun _ _ => false) ⟨5, "hi", []⟩ m = false) →
      (selectAux (fun _ _ => false) ⟨5, "hi", []⟩ [⟨999, "bye", []⟩]).id =
        (⟨5, "hi", []⟩ : Msg).id) :=
  onMessage_reset_and_aux (fun _ _ => false) false true false false
    (some ⟨1, 2, 3, 5, some 4, true⟩) false false [⟨999, "bye", []⟩] ⟨5, "hi", []⟩
    ⟨1, 2, 3, 5, some 5, false⟩ (by decide)

/-- C4 counterexample: a webhook echo of the incoming message (content
matched by substring containment) becomes the authoritative message, so the
handler records the echo's id `999`, not the incoming message's id `5`. -/
theorem onMessage_echo_cex :
    onMessage (fun _ _ => false) false true false false (some ⟨1, 2, 3, 5, some 4, true⟩)
        false false [⟨999, "hi", []⟩] ⟨5, "hi", []⟩ =
      some ⟨1, 2, 3, 5, some 999, false⟩
  ∧ (999 : Nat) ≠ 5 :=
  ⟨by decide, by decide⟩

/-- C7 (amended): the autocomplete returns at most 25 candidates, sorted by
the raw stored name (not the derived display name, which is only what each
returned choice is labelled with); a non-empty typed value filters them by
case-insensitive substring containment in the display name, and an empty
value returns the full scoped list truncated to 25. -/
theorem autocomplete_spec (md : String → String) (value : String) (ocs : List Character) :
    (autocomplete md value ocs).length ≤ 25
  ∧ List.Sorted charNameLe (autocompleteItems md value ocs)
  ∧ autocomplete md value ocs = (autocompleteItems md value ocs).map
      (fun it => ⟨Character.display_name md it, toString it._id⟩)
  ∧ (value = "" → autocompleteItems md value ocs =
      (List.insertionSort charNameLe ocs).take 25)
  ∧ (value ≠ "" → autocompleteItems md value ocs =
      ((List.insertionSort charNameLe ocs).filter
        (fun x => strIn (strLower value) (strLower (Character.display_name md x)))).take 25) := by
  refine ⟨?_, ?_, rfl, ?_, ?_⟩
  · simp only [autocomplete, autocompleteItems, List.length_map]
    exact List.length_take_le _ _
  · have hs := List.sorted_insertionSort charNameLe ocs
    simp only [autocompleteItems]
    have h2 : List.Sorted charNameLe (if value.isEmpty then List.insertionSort charNameLe ocs
        else (List.insertionSort charNameLe ocs).filter
          (fun x => strIn (strLower value) (strLower (Character.display_name md x)))) := by
      split
      · exact hs
      · exact hs.filter _
    exact h2.sublist (List.take_sublist _ _)
  · intro hv
    subst hv
    rfl
  · intro hv
    have hne : value.isEmpty = false := by
      cases he : value.isEmpty
      · rfl
      · exact absurd ((String.isEmpty_iff value).mp he) hv
    simp only [autocompleteItems, hne, Bool.false_eq_true, if_false]

theorem autocomplete_spec_witness :
    autocompleteItems id "" [] = (List.insertionSort charNameLe []).take 25
  ∧ autocompleteItems id "a" [] =
      ((List.insertionSort charNameLe []).filter
        (fun x => strIn (strLower "a") (strLower (Character.display_name id x)))).take 25 :=
  ⟨(autocomplete_spec id "" []).2.2.2.1 rfl,
   (autocomplete_spec id "a" []).2.2.2.2 (by decide)⟩

/-- A character whose stored name sorts first but whose derived names sort
last. -/
def zedChar : Character := ⟨11, 1, "Alpha", "Name: Zed"⟩

/-- A character whose stored name sorts last but whose derived names sort
first. -/
def annChar : Character := ⟨12, 1, "Beta", "Name: Ann"⟩

/-- C7 counterexample: sorting happens on the stored names
(`"Alpha" < "Beta"`), so the returned choices are not sorted by the derived
name — the `Zed` display name precedes the strictly smaller `Ann` one, and
the same inversion holds for the derived `oc_name`s. -/
theorem autocomplete_unsorted_by_derived_cex :
    (autocomplete id "" [zedChar, annChar]).map Choice.name =
      ["000〙Zed《Unknown》", "000〙Ann《Unknown》"]
  ∧ charListLt "000〙Ann《Unknown》".toList "000〙Zed《Unknown》".toList = true
  ∧ (autocompleteItems id "" [zedChar, annChar]).map (Character.oc_name id) = ["Zed", "Ann"]
  ∧ charListLt "Ann".toList "Zed".toList = true :=
  ⟨by decide, by decide, by decide, by decide⟩

/-- When every candidate scores below the cutoff, the running-best scan of
`extractOne` never admits one. -/
theorem extractOneGo_none_of_all_below (score : String → String → Nat) (q : String)
    (proc : Character → String) (cutoff : Nat) :
    ∀ (cands : List Character), (∀ c ∈ cands, score q (proc c) < cutoff) →
      extractOneGo score q proc cutoff none cands = none := by
  intro cands
  induction cands with
  | nil => intro; rfl
  | cons c rest ih =>
    intro h
    have hc : ¬ (cutoff ≤ score q (proc c)) := by
      have := h c (by simp)
      omega
    simp only [extractOneGo, hc, if_false]
    exact ih (fun x hx => h x (by simp [hx]))

/-- C8: when the direct lookup misses, an empty scoped candidate set fails
with the "no characters" error, a non-empty set in which nothing clears the
fuzzy cutoff of 95 fails with the "not found" error, and the two errors are
distinct values, so the caller can tell them apart. -/
theorem converter_failure_modes (score : String → String → Nat) (md : String → String)
    (argument : String) (ocs : List Character) :
    (ocs = [] → Character.converter score md none argument ocs =
      Except.error ConvError.noCharacters)
  ∧ (ocs ≠ [] → (∀ c ∈ ocs, score argument (Character.oc_name md c) < 95) →
      Character.converter score md none argument ocs =
        Except.error (ConvError.notFound argument))
  ∧ (∀ a, ConvError.noCharacters ≠ ConvError.notFound a) := by
  refine ⟨?_, ?_, fun a h => ConvError.noConfusion h⟩
  · intro h
    subst h
    rfl
  · intro hne hall
    have hext : extractOne score argument (Character.oc_name md) 95 ocs = none := by
      unfold extractOne
      rw [extractOneGo_none_of_all_below score argument (Character.oc_name md) 95 ocs hall]
      rfl
    have hempty : ocs.isEmpty = false := by
      cases ocs
      · exact absurd rfl hne
      · rfl
    simp only [Character.converter, hempty, Bool.false_eq_true, if_false, hext]

/-- A candidate character for the converter witness. -/
def strayChar : Character := ⟨21, 1, "Stray", "Name: Stray"⟩

theorem converter_failure_modes_witness :
    Character.converter (fun _ _ => 0) id none "Spark" [] =
      Except.error ConvError.noCharacters
  ∧ Character.converter (fun _ _ => 0) id none "Spark" [strayChar] =
      Except.error (ConvError.notFound "Spark") :=
  ⟨(converter_failure_modes (fun _ _ => 0) id "Spark" []).1 rfl,
   (converter_failure_modes (fun _ _ => 0) id "Spark" [strayChar]).2.1 (by decide)
     (fun _ _ => by decide)⟩
